import Mathlib

/-!
Verification development for the pdf-to-anki question-recognition engine.

This file gives a shallow embedding of the recognition engine
(`recognizers.py`) and the question store (`question_manager.py`) of the
repository, together with theorems about the embedded definitions.

Modelling conventions:
* Python strings are modelled as Lean `String` / `List Char`; positions are
  code-point indices (as in Python).
* Python's regular expressions are embedded by a small backtracking matcher
  (`RE` below) whose alternation is ordered, whose greedy/lazy repetition
  over character classes tries longest/shortest first, and whose search
  scans left to right — the semantics of the `re` module restricted to the
  constructs the source actually uses.
* Answer labels (single letters `A`..`J`) are modelled as `Char`;
  `metadata : Dict[str, Any]` is modelled as an association list with
  string values; a Python `dict` is an association list where assignment
  replaces the first matching key in place and otherwise appends.
* Functions that `raise` are modelled with `Except String`; stateful
  methods of `QuestionManager` return a (result, post-state) pair so that
  "raises without mutating" is expressible.
* `uuid.uuid4()` in `parse_question` is modelled as an extra input
  parameter `qid` (an opaque fresh identifier).
-/

set_option autoImplicit false

namespace PdfToAnki

/-! ## Character helpers (Python `\s`, `str.strip`, ...) -/

/-- Python whitespace for `\s` and `str.strip` (ASCII whitespace plus the
ideographic space, the only extra whitespace that occurs in this domain). -/
def isPySpace (c : Char) : Bool :=
  c == ' ' || c == '\t' || c == '\n' || c == '\r' ||
  c == '\x0b' || c == '\x0c' || c == '　'

/-- Membership of a character in the characters of a string (a regex
character class written out). -/
def inS (s : String) (c : Char) : Bool := s.data.contains c

/-- Python `str.lstrip()`. -/
def pyStripL (t : List Char) : List Char := t.dropWhile isPySpace

/-- Python `str.rstrip()`. -/
def pyStripR (t : List Char) : List Char := (t.reverse.dropWhile isPySpace).reverse

/-- Python `str.strip()`. -/
def pyStrip (t : List Char) : List Char := pyStripR (pyStripL t)

/-- Python slice `t[a:b]` (with the clamping Python does). -/
def sliceLC (t : List Char) (a b : Nat) : List Char := (t.take b).drop a

/-- Python substring containment `pat in t`. -/
def containsSub (pat : List Char) : List Char → Bool
  | [] => pat.isEmpty
  | c :: rest => pat.isPrefixOf (c :: rest) || containsSub pat rest

/-- Python `t.rfind(c)` restricted to the found case: index of the last
occurrence of character `c`, if any. -/
def rfindChar (c : Char) : List Char → Option Nat
  | [] => none
  | x :: rest =>
    match rfindChar c rest with
    | some i => some (i + 1)
    | none => if x == c then some 0 else none

/-! ## Data model (models.py) -/

/-- `QuestionType` enumeration of models.py. -/
inductive QuestionType where
  | SINGLE_CHOICE
  | MULTIPLE_CHOICE
  | UNKNOWN
deriving DecidableEq, Repr

/-- `Image` dataclass of models.py (binary data modelled as a byte list). -/
structure ImageRec where
  data : List Nat
  format : String
  width : Nat
  height : Nat
  position : Nat
deriving DecidableEq, Repr

/-- `Option` dataclass of models.py (renamed: `Option` is taken in Lean).
The label is a single canonical character. -/
structure QOption where
  label : Char
  content : String
  images : List ImageRec := []
deriving DecidableEq, Repr

/-- `Question` dataclass of models.py.  Correct answers are single-letter
labels, hence `List Char`; metadata values are modelled as strings. -/
structure Question where
  id : String
  number : String
  question_text : String
  options : List QOption
  correct_answers : List Char
  question_type : QuestionType
  explanation : String := ""
  images : List ImageRec := []
  needs_review : Bool := false
  selected : Bool := true
  metadata : List (String × String) := []
deriving DecidableEq, Repr

/-! ## Python dict operations on association lists -/

/-- Python `d[k] = v`: replace the first binding of `k` in place, else
append at the end (dict insertion order). -/
def dictSet {β : Type} : List (String × β) → String → β → List (String × β)
  | [], k, v => [(k, v)]
  | (k0, v0) :: rest, k, v =>
    if k0 = k then (k0, v) :: rest else (k0, v0) :: dictSet rest k v

/-- Python `del d[k]` (first binding removed; dict keys are unique anyway). -/
def dictRemove {β : Type} : List (String × β) → String → List (String × β)
  | [], _ => []
  | (k0, v0) :: rest, k =>
    if k0 = k then rest else (k0, v0) :: dictRemove rest k

/-- Python `old.update(new)`: sequential assignment of every binding of
`new` into `old`. -/
def dictUpdate {β : Type} (old new : List (String × β)) : List (String × β) :=
  new.foldl (fun acc kv => dictSet acc kv.1 kv.2) old

/-! ## Numeral Normalizer (recognizers.py `_convert_chinese_number`,
`_parse_chinese_number`) -/

/-- The `CHINESE_TO_ARABIC` lookup table of recognizers.py. -/
def CHINESE_TO_ARABIC : List (String × String) :=
  [("一", "1"), ("二", "2"), ("三", "3"), ("四", "4"), ("五", "5"),
   ("六", "6"), ("七", "7"), ("八", "8"), ("九", "9"), ("十", "10"),
   ("十一", "11"), ("十二", "12"), ("十三", "13"), ("十四", "14"), ("十五", "15"),
   ("二十", "20"), ("三十", "30"), ("四十", "40"), ("五十", "50"),
   ("百", "100")]

/-- The character class `[一二三四五六七八九十百]` of the CJK-numeral patterns. -/
def isCjkNum (c : Char) : Bool := inS "一二三四五六七八九十百" c

/-- The `chinese_digits` table inside `_parse_chinese_number`. -/
def cnDigit (c : Char) : Option Nat :=
  if c = '零' then some 0 else if c = '一' then some 1 else
  if c = '二' then some 2 else if c = '三' then some 3 else
  if c = '四' then some 4 else if c = '五' then some 5 else
  if c = '六' then some 6 else if c = '七' then some 7 else
  if c = '八' then some 8 else if c = '九' then some 9 else none

/-- The `chinese_units` table inside `_parse_chinese_number`. -/
def cnUnit (c : Char) : Option Nat :=
  if c = '十' then some 10 else if c = '百' then some 100 else none

/-- The accumulation loop of `_parse_chinese_number` (running `result` and
pending digit `temp`; a unit multiplies the pending digit, defaulting to 1). -/
def parseCnAux : List Char → Nat → Nat → Nat
  | [], result, temp => result + temp
  | c :: rest, result, temp =>
    match cnDigit c with
    | some d => parseCnAux rest result d
    | none =>
      match cnUnit c with
      | some u => parseCnAux rest (result + (if temp = 0 then 1 else temp) * u) 0
      | none => parseCnAux rest result temp

/-- `QuestionRecognizer._parse_chinese_number`: place-value parse of a CJK
numeral; an all-zero result defaults to 1. -/
def _parse_chinese_number (chinese : List Char) : Nat :=
  let result := parseCnAux chinese 0 0
  if result > 0 then result else 1

/-- `QuestionRecognizer._convert_chinese_number`: table lookup first, then the
place-value parse when the token matches `^[一二三四五六七八九十百]+$`,
otherwise the token is returned unchanged. -/
def _convert_chinese_number (number : String) : String :=
  match List.lookup number CHINESE_TO_ARABIC with
  | some v => v
  | none =>
    if number.data ≠ [] ∧ number.data.all isCjkNum then
      toString (_parse_chinese_number number.data)
    else
      number

/-! ## Answer-string parser (recognizers.py `_parse_answer_string`) -/

/-- The valid uppercase labels `'ABCDEFGHIJ'`. -/
def ucLetters : List Char := ['A', 'B', 'C', 'D', 'E', 'F', 'G', 'H', 'I', 'J']

/-- The `CIRCLE_TO_LETTER` table of recognizers.py. -/
def CIRCLE_TO_LETTER : List (Char × Char) :=
  [('①', 'A'), ('②', 'B'), ('③', 'C'), ('④', 'D'), ('⑤', 'E'),
   ('⑥', 'F'), ('⑦', 'G'), ('⑧', 'H'), ('⑨', 'I'), ('⑩', 'J')]

/-- The separator characters removed by `_parse_answer_string`
(`、`, `,`, `，` and the ASCII space). -/
def sepChars : List Char := ['、', ',', '，', ' ']

/-- The de-duplication loop of `_parse_answer_string` (keep first-seen order). -/
def dedupeKeepOrder : List Char → List Char → List Char
  | [], _ => []
  | c :: rest, seen =>
    if seen.contains c then dedupeKeepOrder rest seen
    else c :: dedupeKeepOrder rest (c :: seen)

/-- `QuestionRecognizer._parse_answer_string` on the character level:
strip separators, keep `A`..`J` (upper-cased) and mapped circled digits,
drop everything else, de-duplicate preserving first-seen order. -/
def parse_answer_chars (s : List Char) : List Char :=
  let clean := s.filter (fun c => !(sepChars.contains c))
  let answers := clean.filterMap (fun c =>
    if ucLetters.contains c.toUpper then some c.toUpper
    else List.lookup c CIRCLE_TO_LETTER)
  dedupeKeepOrder answers []

/-- `QuestionRecognizer._parse_answer_string` (string-level wrapper). -/
def _parse_answer_string (s : String) : List Char := parse_answer_chars s.data

/-! ## Question Store (question_manager.py) -/

/-- The state of a `QuestionManager`: the id → Question dict and the
id → source-file dict. -/
structure QuestionManager where
  questions : List (String × Question)
  source_file_map : List (String × String)
deriving DecidableEq, Repr

/-- A dynamically-typed value supplied in the `updates` dict of
`update_question`.  `other` stands for any value whose Python type is not
the one the corresponding field requires (so `isinstance` checks can fail). -/
inductive UpdVal where
  | str (s : String)
  | optList (l : List QOption)
  | answers (l : List Char)
  | qtype (t : QuestionType)
  | boolv (b : Bool)
  | dict (d : List (String × String))
  | other
deriving DecidableEq, Repr

/-- The `updates` dict of `update_question`: each recognised key is either
absent (`none`) or present with a dynamic value. -/
structure Updates where
  question_text : Option UpdVal := none
  options : Option UpdVal := none
  correct_answers : Option UpdVal := none
  question_type : Option UpdVal := none
  needs_review : Option UpdVal := none
  metadata : Option UpdVal := none
  number : Option UpdVal := none
deriving DecidableEq, Repr

/-- Python `not updates` for the updates dict. -/
def updatesEmpty (u : Updates) : Bool :=
  u.question_text.isNone && u.options.isNone && u.correct_answers.isNone &&
  u.question_type.isNone && u.needs_review.isNone && u.metadata.isNone &&
  u.number.isNone

/-- One `isinstance` check of `_validate_updates`: a missing key passes, a
present key must have the right shape. -/
def checkField (v : Option UpdVal) (ok : UpdVal → Bool) (msg : String) :
    Except String Unit :=
  match v with
  | none => .ok ()
  | some x => if ok x then .ok () else .error msg

namespace QuestionManager

/-- `QuestionManager._validate_updates`: reject an empty dict, then check the
shape of every present field, in source order. -/
def _validate_updates (u : Updates) : Except String Unit :=
  if updatesEmpty u then .error "更新数据不能为空"
  else do
    checkField u.question_text
      (fun v => match v with | .str _ => true | _ => false) "问题文本必须是字符串"
    checkField u.options
      (fun v => match v with | .optList _ => true | _ => false) "选项必须是列表"
    checkField u.correct_answers
      (fun v => match v with | .answers _ => true | _ => false) "正确答案必须是列表"
    checkField u.question_type
      (fun v => match v with | .qtype _ => true | _ => false) "题目类型必须是QuestionType枚举值"
    checkField u.needs_review
      (fun v => match v with | .boolv _ => true | _ => false) "needs_review必须是布尔值"
    checkField u.metadata
      (fun v => match v with | .dict _ => true | _ => false) "metadata必须是字典"
    checkField u.number
      (fun v => match v with | .str _ => true | _ => false) "题目编号必须是字符串"

/-- `QuestionManager.add_question`.  On failure (empty or duplicate id) the
error is raised before any state is touched, so the input state is returned. -/
def add_question (m : QuestionManager) (question : Question)
    (source_file : String) : Except String String × QuestionManager :=
  if question.id = "" then
    (.error "题目ID不能为空", m)
  else if (List.lookup question.id m.questions).isSome then
    (.error "题目ID已存在", m)
  else
    let m1 : QuestionManager :=
      { m with questions := dictSet m.questions question.id question }
    let m2 : QuestionManager :=
      if source_file ≠ "" then
        { m1 with source_file_map := dictSet m1.source_file_map question.id source_file }
      else m1
    (.ok question.id, m2)

/-- `QuestionManager.remove_question`: `False` and no change when the id is
absent, otherwise delete from both dicts. -/
def remove_question (m : QuestionManager) (question_id : String) :
    Bool × QuestionManager :=
  if (List.lookup question_id m.questions).isNone then
    (false, m)
  else
    let m1 : QuestionManager :=
      { m with questions := dictRemove m.questions question_id }
    let m2 : QuestionManager :=
      if (List.lookup question_id m1.source_file_map).isSome then
        { m1 with source_file_map := dictRemove m1.source_file_map question_id }
      else m1
    (true, m2)

/-- The `replace(current_question, **updated_fields)` step of
`update_question`: every recognised, well-typed present field replaces the
stored one; `metadata` is merged (`dict.update`) rather than replaced. -/
def applyUpdatesQ (current : Question) (u : Updates) : Question :=
  { current with
    question_text :=
      match u.question_text with
      | some (.str s) => s
      | _ => current.question_text,
    options :=
      match u.options with
      | some (.optList l) => l
      | _ => current.options,
    correct_answers :=
      match u.correct_answers with
      | some (.answers l) => l
      | _ => current.correct_answers,
    question_type :=
      match u.question_type with
      | some (.qtype t) => t
      | _ => current.question_type,
    needs_review :=
      match u.needs_review with
      | some (.boolv b) => b
      | _ => current.needs_review,
    metadata :=
      match u.metadata with
      | some (.dict d) => dictUpdate current.metadata d
      | _ => current.metadata,
    number :=
      match u.number with
      | some (.str s) => s
      | _ => current.number }

/-- `QuestionManager._auto_update_question_type`: recompute the type from the
answer-list cardinality alone. -/
def _auto_update_question_type (question : Question) : Question :=
  let num_answers := question.correct_answers.length
  let new_type :=
    if num_answers = 0 then QuestionType.UNKNOWN
    else if num_answers = 1 then QuestionType.SINGLE_CHOICE
    else QuestionType.MULTIPLE_CHOICE
  if question.question_type ≠ new_type then
    { question with question_type := new_type }
  else
    question

/-- `QuestionManager.update_question`: existence check, then validation, and
only then the replacement (plus the automatic type recomputation when
`correct_answers` is supplied without `question_type`) and the store write. -/
def update_question (m : QuestionManager) (question_id : String)
    (updates : Updates) : Except String Question × QuestionManager :=
  match List.lookup question_id m.questions with
  | none => (.error "题目ID不存在", m)
  | some current_question =>
    match _validate_updates updates with
    | .error e => (.error e, m)
    | .ok _ =>
      let updated_question := applyUpdatesQ current_question updates
      let updated_question :=
        if updates.correct_answers.isSome && updates.question_type.isNone then
          _auto_update_question_type updated_question
        else updated_question
      (.ok updated_question,
       { m with questions := dictSet m.questions question_id updated_question })

end QuestionManager

/-- Whether an `Except` result is the error case (a Python `raise`). -/
def isErrorE {α : Type} : Except String α → Bool
  | .error _ => true
  | .ok _ => false

/-! ## A small backtracking regex matcher

The source uses Python's `re` with a limited construct set: literals,
character classes, ordered alternation, `?`, greedy and lazy `*`/`+` over
character classes, one or two capture groups, positive lookahead `(?=...)`,
and the anchors `^`/`$` (whose meaning depends on `re.MULTILINE`).  `RE`
embeds exactly these; the matcher is continuation-passing with ordered
choice, which reproduces Python's leftmost backtracking search order. -/

/-- Regex abstract syntax.  Repetition is restricted to character classes,
which is all the source's patterns use, and guarantees termination. -/
inductive RE where
  | eps
  | lit (s : List Char)
  | cls (p : Char → Bool)
  | cat (a b : RE)
  | alt (a b : RE)
  | opt (a : RE)
  | star (p : Char → Bool) (lazy : Bool)
  | plus (p : Char → Bool) (lazy : Bool)
  | group (n : Nat) (a : RE)
  | look (a : RE)
  | bol
  | eol

/-- Capture environment: group number → captured characters
(later entries shadow earlier ones). -/
abbrev Caps := List (Nat × List Char)

/-- Record a capture. -/
def setCap (n : Nat) (v : List Char) (caps : Caps) : Caps := (n, v) :: caps

/-- Read a capture (`''` when the group never participated). -/
def getCap (n : Nat) (caps : Caps) : List Char :=
  (List.lookup n caps).getD []

/-- Consume a literal. -/
def matchLit {α : Type} (l : List Char) (prev : Option Char) (s : List Char)
    (caps : Caps) (cont : Option Char → List Char → Caps → Option α) : Option α :=
  match l, s with
  | [], _ => cont prev s caps
  | _ :: _, [] => none
  | c :: lrest, x :: srest =>
    if c == x then matchLit lrest (some x) srest caps cont else none

/-- Kleene star over a character class.  Greedy tries the longest
continuation first, lazy the shortest, exactly as Python's backtracking. -/
def starLoop {α : Type} (p : Char → Bool) (lazy : Bool) (prev : Option Char)
    (s : List Char) (caps : Caps)
    (cont : Option Char → List Char → Caps → Option α) : Option α :=
  match s with
  | [] => cont prev [] caps
  | c :: rest =>
    if p c then
      if lazy then
        (cont prev s caps).orElse (fun _ => starLoop p lazy (some c) rest caps cont)
      else
        (starLoop p lazy (some c) rest caps cont).orElse (fun _ => cont prev s caps)
    else cont prev s caps

/-- The matcher.  `ml` is `re.MULTILINE`; `prev` is the character just before
the current position (needed by the anchors); the continuation receives the
updated `prev`, the remaining input and the captures. -/
def matchC {α : Type} (ml : Bool) :
    RE → Option Char → List Char → Caps →
    (Option Char → List Char → Caps → Option α) → Option α
  | .eps, prev, s, caps, cont => cont prev s caps
  | .lit l, prev, s, caps, cont => matchLit l prev s caps cont
  | .cls p, prev, s, caps, cont =>
    match s with
    | [] => none
    | c :: rest => if p c then cont (some c) rest caps else none
  | .cat a b, prev, s, caps, cont =>
    matchC ml a prev s caps (fun p2 s2 c2 => matchC ml b p2 s2 c2 cont)
  | .alt a b, prev, s, caps, cont =>
    (matchC ml a prev s caps cont).orElse (fun _ => matchC ml b prev s caps cont)
  | .opt a, prev, s, caps, cont =>
    (matchC ml a prev s caps cont).orElse (fun _ => cont prev s caps)
  | .star p lz, prev, s, caps, cont => starLoop p lz prev s caps cont
  | .plus p lz, prev, s, caps, cont =>
    match s with
    | [] => none
    | c :: rest => if p c then starLoop p lz (some c) rest caps cont else none
  | .group n a, prev, s, caps, cont =>
    matchC ml a prev s caps
      (fun p2 s2 c2 => cont p2 s2 (setCap n (s.take (s.length - s2.length)) c2))
  | .look a, prev, s, caps, cont =>
    matchC ml a prev s caps (fun _ _ _ => cont prev s caps)
  | .bol, prev, s, caps, cont =>
    match prev with
    | none => cont prev s caps
    | some c => if ml && c == '\n' then cont prev s caps else none
  | .eol, prev, s, caps, cont =>
    if ml then
      match s with
      | [] => cont prev s caps
      | c :: _ => if c == '\n' then cont prev s caps else none
    else
      match s with
      | [] => cont prev s caps
      | [c] => if c == '\n' then cont prev s caps else none
      | _ => none

/-- Try the regex anchored at the current position; on success return the
captures and the length of the remaining input. -/
def tryMatch (ml : Bool) (re : RE) (prev : Option Char) (s : List Char) :
    Option (Caps × Nat) :=
  matchC ml re prev s [] (fun _ s2 caps => some (caps, s2.length))

/-- `re.search` scan: first position (left to right) with a match; returns
(start, end, captures). -/
def searchAux (ml : Bool) (re : RE) :
    Option Char → List Char → Nat → Option (Nat × Nat × Caps)
  | prev, s, pos =>
    match tryMatch ml re prev s with
    | some (caps, rem) => some (pos, pos + (s.length - rem), caps)
    | none =>
      match s with
      | [] => none
      | c :: rest => searchAux ml re (some c) rest (pos + 1)

/-- `re.search(pattern, text)` (with `ml` = `re.MULTILINE`). -/
def reSearch (ml : Bool) (re : RE) (t : List Char) : Option (Nat × Nat × Caps) :=
  searchAux ml re none t 0

/-- `re.finditer` loop (fuel bounds the scan; an empty-width match advances
by one, as in Python). -/
def finditerAux (ml : Bool) (re : RE) :
    Nat → Option Char → List Char → Nat → List (Nat × Nat × Caps)
  | 0, _, _, _ => []
  | fuel + 1, prev, s, pos =>
    match tryMatch ml re prev s with
    | some (caps, rem) =>
      let len := s.length - rem
      if len = 0 then
        (pos, pos, caps) ::
          (match s with
           | [] => []
           | c :: rest => finditerAux ml re fuel (some c) rest (pos + 1))
      else
        (pos, pos + len, caps) ::
          finditerAux ml re fuel ((s.take len).getLast?) (s.drop len) (pos + len)
    | none =>
      match s with
      | [] => []
      | c :: rest => finditerAux ml re fuel (some c) rest (pos + 1)

/-- `re.finditer(pattern, text)`: all non-overlapping matches, left to right. -/
def reFinditer (ml : Bool) (re : RE) (t : List Char) : List (Nat × Nat × Caps) :=
  finditerAux ml re (t.length + 1) none t 0

/-- `re.sub(pattern, repl, text, count=1)`. -/
def reSubFirst (ml : Bool) (re : RE) (repl : List Char) (t : List Char) :
    List Char :=
  match reSearch ml re t with
  | some (s0, e0, _) => t.take s0 ++ repl ++ t.drop e0
  | none => t

/-- Splice a replacement into the text at every listed match. -/
def spliceAll (repl : List Char) :
    List (Nat × Nat × Caps) → Nat → List Char → List Char
  | [], _, rest => rest
  | (s0, e0, _) :: ms, cur, rest =>
    rest.take (s0 - cur) ++ repl ++ spliceAll repl ms e0 (rest.drop (e0 - cur))

/-- `re.sub(pattern, repl, text)` (all non-overlapping matches). -/
def reSubAll (ml : Bool) (re : RE) (repl : List Char) (t : List Char) :
    List Char :=
  spliceAll repl (reFinditer ml re t) 0 t

/-- Sequence a pattern list. -/
def reSeq (l : List RE) : RE := l.foldr RE.cat RE.eps

/-- Ordered alternation of a pattern list. -/
def reAlts : List RE → RE
  | [] => RE.cls (fun _ => false)
  | [a] => a
  | a :: rest => RE.alt a (reAlts rest)

/-- Literal from a string. -/
def litS (s : String) : RE := RE.lit s.data

/-- Character class from the characters of a string. -/
def clsS (s : String) : RE := RE.cls (inS s)

/-- `\s*`. -/
def wsStar : RE := RE.star isPySpace false

/-- `\s+`. -/
def wsPlus : RE := RE.plus isPySpace false

/-- `(?:^|\n)`. -/
def bolOrNl : RE := RE.alt RE.bol (RE.lit ['\n'])

/-- `.` under `re.DOTALL`, and `[\s\S]`. -/
def anyC (_ : Char) : Bool := true

/-- `.` without `re.DOTALL`. -/
def anyNoNl (c : Char) : Bool := c != '\n'

/-! ## The source's patterns

Each definition below embeds one regular-expression literal of
recognizers.py.  Case-insensitive letter classes (`re.IGNORECASE` call
sites) are folded into the class predicates. -/

/-- The circled-digit class `[①②③④⑤⑥⑦⑧⑨⑩]`. -/
def isCircled (c : Char) : Bool := inS "①②③④⑤⑥⑦⑧⑨⑩" c

/-- `QUESTION_NUMBER_PATTERNS[0]`: `(?:^|\n)\s*(\d+)\s*[.、\):：]\s*`. -/
def qnumP1 : RE :=
  reSeq [bolOrNl, wsStar, RE.group 1 (RE.plus Char.isDigit false), wsStar,
    clsS ".、):：", wsStar]

/-- `QUESTION_NUMBER_PATTERNS[1]`:
`(?:^|\n)\s*[（(]?([一二三四五六七八九十百]+)[）)]?\s*[、.．:：]\s*`. -/
def qnumP2 : RE :=
  reSeq [bolOrNl, wsStar, RE.opt (clsS "（("), RE.group 1 (RE.plus isCjkNum false),
    RE.opt (clsS "）)"), wsStar, clsS "、.．:：", wsStar]

/-- `QUESTION_NUMBER_PATTERNS[2]`: `(?:^|\n)\s*[（(](\d+)[）)]\s*`. -/
def qnumP3 : RE :=
  reSeq [bolOrNl, wsStar, clsS "（(", RE.group 1 (RE.plus Char.isDigit false),
    clsS "）)", wsStar]

/-- `QUESTION_NUMBER_PATTERNS[3]`:
`(?:^|\n)\s*第\s*(\d+|[一二三四五六七八九十百]+)\s*题[.、:：]?\s*`. -/
def qnumP4 : RE :=
  reSeq [bolOrNl, wsStar, litS "第", wsStar,
    RE.group 1 (RE.alt (RE.plus Char.isDigit false) (RE.plus isCjkNum false)),
    wsStar, litS "题", RE.opt (clsS ".、:："), wsStar]

/-- The `QUESTION_NUMBER_PATTERNS` list. -/
def QUESTION_NUMBER_PATTERNS : List RE := [qnumP1, qnumP2, qnumP3, qnumP4]

/-- The answer-section entry pattern of `_extract_answer_section`:
`(\d+)\s*[.、．]\s*【(?:正确答案|答案)】\s*([A-Za-z]+)`. -/
def answerSectionRE : RE :=
  reSeq [RE.group 1 (RE.plus Char.isDigit false), wsStar, clsS ".、．", wsStar,
    litS "【", RE.alt (litS "正确答案") (litS "答案"), litS "】", wsStar,
    RE.group 2 (RE.plus Char.isAlpha false)]

/-- The number-prefix strip of `_extract_answer_section`:
`^\d+\s*[.、．]\s*` (no `re.MULTILINE`). -/
def prefixStripRE : RE :=
  reSeq [RE.bol, RE.plus Char.isDigit false, wsStar, clsS ".、．", wsStar]

/-- The number-qualified answer pattern of `extract_answer`:
`{n}\s*[.、．]\s*【(?:正确答案|答案)】\s*([A-Za-z]+)`. -/
def specificAnswerRE (question_number : String) : RE :=
  reSeq [RE.lit question_number.data, wsStar, clsS ".、．", wsStar, litS "【",
    RE.alt (litS "正确答案") (litS "答案"), litS "】", wsStar,
    RE.group 1 (RE.plus Char.isAlpha false)]

/-- The multiple-answer-entry detector:
`\d+\s*[.、．]\s*【(?:正确答案|答案)】`. -/
def multiAnswerRE : RE :=
  reSeq [RE.plus Char.isDigit false, wsStar, clsS ".、．", wsStar, litS "【",
    RE.alt (litS "正确答案") (litS "答案"), litS "】"]

/-- `[A-Za-z①-⑩、,，\s]`. -/
def ansClsFull (c : Char) : Bool :=
  c.isAlpha || isCircled c || inS "、,，" c || isPySpace c

/-- `[A-Za-z①-⑩、,，]`. -/
def ansClsSep (c : Char) : Bool := c.isAlpha || isCircled c || inS "、,，" c

/-- `[A-Za-z①-⑩]`. -/
def ansClsLet (c : Char) : Bool := c.isAlpha || isCircled c

/-- `ANSWER_PATTERNS[0]`:
`【(?:答案|正确答案|参考答案|本题答案)】\s*[：:]?\s*([A-Za-z①-⑩、,，\s]+)`. -/
def ansP1 : RE :=
  reSeq [litS "【",
    reAlts [litS "答案", litS "正确答案", litS "参考答案", litS "本题答案"],
    litS "】", wsStar, RE.opt (clsS "：:"), wsStar,
    RE.group 1 (RE.plus ansClsFull false)]

/-- `ANSWER_PATTERNS[1]`:
`[（\(](?:答案|正确答案|参考答案)[：:]\s*([A-Za-z①-⑩、,，]+)[）\)]`. -/
def ansP2 : RE :=
  reSeq [clsS "（(", reAlts [litS "答案", litS "正确答案", litS "参考答案"],
    clsS "：:", wsStar, RE.group 1 (RE.plus ansClsSep false), clsS "）)"]

/-- `ANSWER_PATTERNS[2]`:
`(?:答案|正确答案|参考答案|本题答案)\s*[：:]\s*([A-Za-z①-⑩、,，\s]+)`. -/
def ansP3 : RE :=
  reSeq [reAlts [litS "答案", litS "正确答案", litS "参考答案", litS "本题答案"],
    wsStar, clsS "：:", wsStar, RE.group 1 (RE.plus ansClsFull false)]

/-- `ANSWER_PATTERNS[3]`: `(?:答案|正确答案|参考答案)\s+([A-Za-z①-⑩]+)`. -/
def ansP4 : RE :=
  reSeq [reAlts [litS "答案", litS "正确答案", litS "参考答案"], wsPlus,
    RE.group 1 (RE.plus ansClsLet false)]

/-- `ANSWER_PATTERNS[4]`: `(?:应选|选)\s*([A-Za-z]+)`. -/
def ansP5 : RE :=
  reSeq [reAlts [litS "应选", litS "选"], wsStar,
    RE.group 1 (RE.plus Char.isAlpha false)]

/-- `ANSWER_PATTERNS[5]`: `([A-Z])\s*[√✓]` (case-folded by `re.IGNORECASE`). -/
def ansP6 : RE :=
  reSeq [RE.group 1 (RE.cls Char.isAlpha), wsStar, clsS "√✓"]

/-- `ANSWER_PATTERNS[6]`: `正确(?:选项|答案)(?:为|是)\s*([A-Za-z①-⑩、,，]+)`. -/
def ansP7 : RE :=
  reSeq [litS "正确", RE.alt (litS "选项") (litS "答案"),
    RE.alt (litS "为") (litS "是"), wsStar, RE.group 1 (RE.plus ansClsSep false)]

/-- `ANSWER_PATTERNS[7]`:
`(?:^|\n)\s*答案\s*[：:]*\s*([A-Za-z]+)\s*(?:\n|$)`. -/
def ansP8 : RE :=
  reSeq [bolOrNl, wsStar, litS "答案", wsStar, RE.star (inS "：:") false, wsStar,
    RE.group 1 (RE.plus Char.isAlpha false), wsStar,
    RE.alt (RE.lit ['\n']) RE.eol]

/-- `ANSWER_PATTERNS[8]`: `答\s*案\s*[：:]*\s*([A-Za-z]+)`. -/
def ansP9 : RE :=
  reSeq [litS "答", wsStar, litS "案", wsStar, RE.star (inS "：:") false, wsStar,
    RE.group 1 (RE.plus Char.isAlpha false)]

/-- `ANSWER_PATTERNS[9]`:
`\[(?:答案|正确答案|参考答案)\]\s*[：:]?\s*([A-Za-z①-⑩、,，]+)`. -/
def ansP10 : RE :=
  reSeq [litS "[", reAlts [litS "答案", litS "正确答案", litS "参考答案"],
    litS "]", wsStar, RE.opt (clsS "：:"), wsStar,
    RE.group 1 (RE.plus ansClsSep false)]

/-- `ANSWER_PATTERNS[10]`: `故\s*选\s*(?:择)?\s*([A-Za-z]+)`. -/
def ansP11 : RE :=
  reSeq [litS "故", wsStar, litS "选", wsStar, RE.opt (litS "择"), wsStar,
    RE.group 1 (RE.plus Char.isAlpha false)]

/-- `ANSWER_PATTERNS[11]`: `本题\s*选\s*([A-Za-z]+)`. -/
def ansP12 : RE :=
  reSeq [litS "本题", wsStar, litS "选", wsStar,
    RE.group 1 (RE.plus Char.isAlpha false)]

/-- The `ANSWER_PATTERNS` list. -/
def ANSWER_PATTERNS : List RE :=
  [ansP1, ansP2, ansP3, ansP4, ansP5, ansP6, ansP7, ansP8, ansP9, ansP10,
   ansP11, ansP12]

/-- First loose fallback of `extract_answer`: `答\s*案\s*[：:]*\s*([A-Za-z]+)`. -/
def looseP1 : RE :=
  reSeq [litS "答", wsStar, litS "案", wsStar, RE.star (inS "：:") false, wsStar,
    RE.group 1 (RE.plus Char.isAlpha false)]

/-- Second loose fallback of `extract_answer`:
`(?:本题|此题|该题).*?([A-Z])\s*(?:选项|项)?` (no `re.DOTALL`, letters
case-folded by `re.IGNORECASE`). -/
def looseP2 : RE :=
  reSeq [reAlts [litS "本题", litS "此题", litS "该题"], RE.star anyNoNl true,
    RE.group 1 (RE.cls Char.isAlpha), wsStar,
    RE.opt (RE.alt (litS "选项") (litS "项"))]

/-- The loose fallback pattern list of `extract_answer`. -/
def loosePatterns : List RE := [looseP1, looseP2]

/-- The explanation-marker alternation `(?:解析|解答|分析|详解|答案解析)`. -/
def expHead : RE :=
  reAlts [litS "解析", litS "解答", litS "分析", litS "详解", litS "答案解析"]

/-- The next-question stop `\n\s*\d+\s*[.、．]\s*【`. -/
def nextQBracket : RE :=
  reSeq [RE.lit ['\n'], wsStar, RE.plus Char.isDigit false, wsStar, clsS ".、．",
    wsStar, litS "【"]

/-- `EXPLANATION_PATTERNS[0]`: bracketed explanation bounded by the next
bracketed marker, the next bracketed question, or end of line/text. -/
def expP1 : RE :=
  reSeq [litS "【", expHead, litS "】", wsStar, RE.group 1 (RE.plus anyC true),
    RE.look (reAlts
      [reSeq [litS "【",
         reAlts [litS "正确答案", litS "答案", litS "解析", litS "解答",
           litS "分析", litS "详解"], litS "】"],
       nextQBracket, RE.eol])]

/-- `EXPLANATION_PATTERNS[1]`: `【答案解析】` capture bounded by a bracketed
answer marker, the next bracketed question, or end of line/text. -/
def expP2 : RE :=
  reSeq [litS "【答案解析】", wsStar, RE.group 1 (RE.plus anyC true),
    RE.look (reAlts
      [reSeq [litS "【", RE.alt (litS "正确答案") (litS "答案"), litS "】"],
       nextQBracket, RE.eol])]

/-- `EXPLANATION_PATTERNS[2]`: colon-separated explanation bounded by the
next numbered line starting with `【` or a letter, or end of line/text. -/
def expP3 : RE :=
  reSeq [expHead, wsStar, clsS "：:", wsStar, RE.group 1 (RE.plus anyC true),
    RE.look (RE.alt
      (reSeq [RE.lit ['\n'], wsStar, RE.plus Char.isDigit false, wsStar,
         clsS ".、．", wsStar, RE.alt (litS "【") (RE.cls Char.isAlpha)])
      RE.eol)]

/-- `EXPLANATION_PATTERNS[3]`: `[解析]` bracket form. -/
def expP4 : RE :=
  reSeq [litS "[", reAlts [litS "解析", litS "解答", litS "分析"], litS "]",
    wsStar, RE.group 1 (RE.plus anyC true),
    RE.look (reAlts
      [reSeq [litS "[", RE.alt (litS "正确答案") (litS "答案"), litS "]"],
       reSeq [RE.lit ['\n'], wsStar, RE.plus Char.isDigit false, wsStar,
         clsS ".、．"],
       RE.eol])]

/-- The `EXPLANATION_PATTERNS` list. -/
def EXPLANATION_PATTERNS : List RE := [expP1, expP2, expP3, expP4]

/-- The number-qualified explanation pattern of `extract_explanation`:
`{n}\s*[.、．]\s*【(?:正确答案|答案)】\s*[A-Za-z]+\s*【答案解析】\s*([\s\S]+?)(?=\n\s*\d+\s*[.、．]\s*【|$)`. -/
def specificExplanationRE (question_number : String) : RE :=
  reSeq [RE.lit question_number.data, wsStar, clsS ".、．", wsStar, litS "【",
    RE.alt (litS "正确答案") (litS "答案"), litS "】", wsStar,
    RE.plus Char.isAlpha false, wsStar, litS "【答案解析】", wsStar,
    RE.group 1 (RE.plus anyC true), RE.look (RE.alt nextQBracket RE.eol)]

/-- The plain `【答案解析】\s*([\s\S]+)` capture of `extract_explanation`. -/
def analysisRE : RE :=
  reSeq [litS "【答案解析】", wsStar, RE.group 1 (RE.plus anyC false)]

/-- `\n{3,}` of `_clean_explanation`. -/
def blank3RE : RE :=
  reSeq [RE.lit ['\n', '\n', '\n'], RE.star (fun c => c == '\n') false]

/-- `\n\s*【(?:正确答案|答案)】.*$` of `_clean_explanation` (`re.DOTALL`). -/
def cleanAnsTailRE : RE :=
  reSeq [RE.lit ['\n'], wsStar, litS "【", RE.alt (litS "正确答案") (litS "答案"),
    litS "】", RE.star anyC false, RE.eol]

/-- `\n\s*\d+\s*[.、．].*$` of `_clean_explanation` (`re.DOTALL`). -/
def cleanNextQRE : RE :=
  reSeq [RE.lit ['\n'], wsStar, RE.plus Char.isDigit false, wsStar, clsS ".、．",
    RE.star anyC false, RE.eol]

/-- The line-leading answer-marker alternation used by the option patterns:
`(?:答案|正确答案|参考答案|【答案】|【正确答案】|【参考答案】)`. -/
def answerMarkerAlt : RE :=
  reAlts [litS "答案", litS "正确答案", litS "参考答案", litS "【答案】",
    litS "【正确答案】", litS "【参考答案】"]

/-- The next-option lookahead of the uppercase option pattern:
`\n\s*[（\(]?[A-Z][）\)]?\s*[.、\)）:：]\s`. -/
def nextOptUpper : RE :=
  reSeq [RE.lit ['\n'], wsStar, RE.opt (clsS "（("), RE.cls Char.isUpper,
    RE.opt (clsS "）)"), wsStar, clsS ".、)）:：", RE.cls isPySpace]

/-- Same for lowercase labels. -/
def nextOptLower : RE :=
  reSeq [RE.lit ['\n'], wsStar, RE.opt (clsS "（("), RE.cls Char.isLower,
    RE.opt (clsS "）)"), wsStar, clsS ".、)）:：", RE.cls isPySpace]

/-- The uppercase option pattern of `_extract_options_by_pattern`. -/
def optPatUpper : RE :=
  reSeq [bolOrNl, wsStar, RE.opt (clsS "（("), RE.group 1 (RE.cls Char.isUpper),
    RE.opt (clsS "）)"), wsStar, RE.opt (clsS ".、)）:："), wsStar,
    RE.group 2 (RE.plus anyC true),
    RE.look (reAlts [nextOptUpper, reSeq [bolOrNl, wsStar, answerMarkerAlt],
      RE.eol])]

/-- The lowercase option pattern of `_extract_options_by_pattern`. -/
def optPatLower : RE :=
  reSeq [bolOrNl, wsStar, RE.opt (clsS "（("), RE.group 1 (RE.cls Char.isLower),
    RE.opt (clsS "）)"), wsStar, RE.opt (clsS ".、)）:："), wsStar,
    RE.group 2 (RE.plus anyC true),
    RE.look (reAlts [nextOptLower, reSeq [bolOrNl, wsStar, answerMarkerAlt],
      RE.eol])]

/-- The circled-digit option pattern of `_extract_options_by_pattern`. -/
def optPatCircle : RE :=
  reSeq [bolOrNl, wsStar, RE.group 1 (RE.cls isCircled), wsStar,
    RE.group 2 (RE.plus anyC true),
    RE.look (reAlts [reSeq [RE.lit ['\n'], wsStar, RE.cls isCircled],
      reSeq [bolOrNl, wsStar, answerMarkerAlt], RE.eol])]

/-- The trailing-answer-marker cleanup of option contents:
`\n\s*(?:答案|...|【参考答案】).*$` (`re.DOTALL`). -/
def optCleanupRE : RE :=
  reSeq [RE.lit ['\n'], wsStar, answerMarkerAlt, RE.star anyC false, RE.eol]

/-- Option-position probe of `_extract_question_text` (uppercase form). -/
def optHeadUpper : RE :=
  reSeq [bolOrNl, wsStar, RE.opt (clsS "（("), RE.cls Char.isUpper,
    RE.opt (clsS "）)"), wsStar, RE.opt (clsS ".、)）:：")]

/-- Option-position probe of `_extract_question_text` (lowercase form). -/
def optHeadLower : RE :=
  reSeq [bolOrNl, wsStar, RE.opt (clsS "（("), RE.cls Char.isLower,
    RE.opt (clsS "）)"), wsStar, RE.opt (clsS ".、)）:：")]

/-- Option-position probe of `_extract_question_text` (circled form). -/
def optHeadCircle : RE := reSeq [bolOrNl, wsStar, RE.cls isCircled]

/-! ## QuestionRecognizer methods -/

namespace QuestionRecognizer

/-- The check excluding boundary matches that sit inside an unterminated
`【...】` region: look at the 20 characters before the match for an `【`
with no later `】`. -/
def isInMarker (t : List Char) (start_pos : Nat) : Bool :=
  let before_text := sliceLC t (start_pos - 20) start_pos
  containsSub ['【'] before_text &&
    (match rfindChar '【' before_text with
     | some k => !containsSub ['】'] (before_text.drop k)
     | none => false)

/-- The raw boundary collection of `_find_question_boundaries`: every match
of every number-pattern family, normalised and marker-filtered, in pattern
order. -/
def collectBoundaries (t : List Char) : List (String × Nat) :=
  QUESTION_NUMBER_PATTERNS.flatMap (fun pat =>
    (reFinditer true pat t).filterMap (fun m =>
      let number := _convert_chinese_number ((getCap 1 m.2.2).asString)
      if isInMarker t m.1 then none else some (number, m.1)))

/-- Stable insertion by position (Python's stable `sort(key=pos)`). -/
def insertByPos (x : String × Nat) : List (String × Nat) → List (String × Nat)
  | [] => [x]
  | y :: rest => if y.2 ≤ x.2 then y :: insertByPos x rest else x :: y :: rest

/-- Stable sort of the boundary list by position. -/
def sortByPos (l : List (String × Nat)) : List (String × Nat) :=
  l.foldr insertByPos []

/-- The de-duplication pass of `_find_question_boundaries`: keep a match
only when it is at least 20 characters past the previously accepted offset
(`last_pos` starts at -100) and its number is unseen. -/
def dedupBoundaries :
    List (String × Nat) → List String → Int → List (String × Nat)
  | [], _, _ => []
  | (number, pos) :: rest, seen_numbers, last_pos =>
    if last_pos + 20 ≤ (pos : Int) then
      if seen_numbers.contains number then
        dedupBoundaries rest seen_numbers last_pos
      else
        (number, pos) :: dedupBoundaries rest (number :: seen_numbers) pos
    else
      dedupBoundaries rest seen_numbers last_pos

/-- `QuestionRecognizer._find_question_boundaries`. -/
def _find_question_boundaries (text : String) : List (String × Nat) :=
  dedupBoundaries (sortByPos (collectBoundaries text.data)) [] (-100)

/-- The block-collection loop of `_extract_answer_section`: each entry's
block runs to the next entry (or text end), is stripped, number-prefix
stripped and right-stripped, and stored under its number (later entries
overwrite, as dict assignment does). -/
def buildAnswerMap (t : List Char) :
    List (Nat × Nat × Caps) → List (String × List Char) →
    List (String × List Char)
  | [], m => m
  | (s0, _, caps) :: rest, m =>
    let number := (getCap 1 caps).asString
    let end_pos :=
      match rest with
      | (s1, _, _) :: _ => s1
      | [] => t.length
    let answer_block := pyStrip (sliceLC t s0 end_pos)
    let answer_block := reSubAll false prefixStripRE [] answer_block
    let answer_block := pyStripR answer_block
    buildAnswerMap t rest (dictSet m number answer_block)

/-- `QuestionRecognizer._extract_answer_section`. -/
def _extract_answer_section (text : String) : List (String × List Char) :=
  buildAnswerMap text.data (reFinditer true answerSectionRE text.data) []

/-- The literal markers `【正确答案】` and `【答案】` checked by the segmenter. -/
def mark1 : List Char := "【正确答案】".data

/-- The literal marker `【答案】`. -/
def mark2 : List Char := "【答案】".data

/-- The span-building loop of `recognize_questions`: each span runs to the
next boundary (or text end), is trimmed, and is backfilled from the
answer-key side-table when it holds neither answer marker. -/
def segmentSpans (t : List Char) (answer_map : List (String × List Char)) :
    List (String × Nat) → List (String × String)
  | [] => []
  | (number, start_pos) :: rest =>
    let end_pos :=
      match rest with
      | (_, e) :: _ => e
      | [] => t.length
    let question_text := pyStrip (sliceLC t start_pos end_pos)
    let question_text :=
      match List.lookup number answer_map with
      | some answer_info =>
        if ¬containsSub mark1 question_text ∧ ¬containsSub mark2 question_text
        then question_text ++ '\n' :: answer_info
        else question_text
      | none => question_text
    (number, question_text.asString) :: segmentSpans t answer_map rest

/-- `QuestionRecognizer.recognize_questions`. -/
def recognize_questions (text : String) : List (String × String) :=
  if pyStrip text.data = [] then []
  else
    let answer_map := _extract_answer_section text
    let boundaries := _find_question_boundaries text
    if boundaries = [] then []
    else segmentSpans text.data answer_map boundaries

/-- The label alphabet accepted by each option-pattern family
(`label_set` in `_extract_options_by_pattern`). -/
inductive OptPatternType where
  | upper
  | lower
  | circle
deriving DecidableEq, Repr

/-- `QuestionRecognizer._extract_options_by_pattern`. -/
def _extract_options_by_pattern (t : List Char) (pt : OptPatternType) :
    List QOption :=
  let pat :=
    match pt with
    | .upper => optPatUpper
    | .lower => optPatLower
    | .circle => optPatCircle
  let label_set :=
    match pt with
    | .upper => "ABCDEFGHIJ".data
    | .lower => "abcdefghij".data
    | .circle => "①②③④⑤⑥⑦⑧⑨⑩".data
  (reFinditer true pat t).filterMap (fun m =>
    match (getCap 1 m.2.2).head? with
    | none => none
    | some label =>
      if label_set.contains label then
        let content := pyStrip (getCap 2 m.2.2)
        let content := pyStrip (reSubAll false optCleanupRE [] content)
        if content ≠ [] then
          let normalized_label :=
            match pt with
            | .upper | .lower => label.toUpper
            | .circle => (List.lookup label CIRCLE_TO_LETTER).getD label
          some { label := normalized_label, content := content.asString }
        else none
      else none)

/-- `QuestionRecognizer.extract_options`: uppercase, then lowercase, then
circled digits; the first non-empty family wins. -/
def extract_options (text : String) : List QOption :=
  if pyStrip text.data = [] then []
  else
    let t := text.data
    let u := _extract_options_by_pattern t .upper
    if u ≠ [] then u
    else
      let l := _extract_options_by_pattern t .lower
      if l ≠ [] then l
      else
        let c := _extract_options_by_pattern t .circle
        if c ≠ [] then c
        else []

/-- The `ANSWER_PATTERNS` loop of `extract_answer`: for each pattern take
the first match, parse its group, and stop at the first non-empty parse. -/
def tryAnswerPatterns (ml : Bool) (t : List Char) : List RE → Option (List Char)
  | [] => none
  | p :: rest =>
    match reSearch ml p t with
    | some (_, _, caps) =>
      let answers := parse_answer_chars (getCap 1 caps)
      if answers ≠ [] then some answers else tryAnswerPatterns ml t rest
    | none => tryAnswerPatterns ml t rest

/-- `QuestionRecognizer.extract_answer`. -/
def extract_answer (text : String) (question_number : String) : List Char :=
  if pyStrip text.data = [] then []
  else
    let t := text.data
    let specific : Option (List Char) :=
      if question_number ≠ "" then
        match reSearch true (specificAnswerRE question_number) t with
        | some (_, _, caps) =>
          let answers := parse_answer_chars (getCap 1 caps)
          if answers ≠ [] then some answers else none
        | none => none
      else none
    match specific with
    | some answers => answers
    | none =>
      let has_multiple_answers := 1 < (reFinditer false multiAnswerRE t).length
      let fromMain : Option (List Char) :=
        if has_multiple_answers && question_number ≠ "" then none
        else tryAnswerPatterns true t ANSWER_PATTERNS
      match fromMain with
      | some answers => answers
      | none =>
        match tryAnswerPatterns false t loosePatterns with
        | some answers => answers
        | none => []

/-- `QuestionRecognizer._clean_explanation`. -/
def _clean_explanation (explanation : List Char) : List Char :=
  if explanation = [] then []
  else
    let explanation := reSubAll false blank3RE "\n\n".data explanation
    let explanation := reSubAll false cleanAnsTailRE [] explanation
    let explanation := reSubAll false cleanNextQRE [] explanation
    pyStrip explanation

/-- The `EXPLANATION_PATTERNS` loop of `extract_explanation`. -/
def tryExplanationPatterns (t : List Char) : List RE → Option (List Char)
  | [] => none
  | p :: rest =>
    match reSearch true p t with
    | some (_, _, caps) =>
      let e := _clean_explanation (pyStrip (getCap 1 caps))
      if e ≠ [] then some e else tryExplanationPatterns t rest
    | none => tryExplanationPatterns t rest

/-- `QuestionRecognizer.extract_explanation`. -/
def extract_explanation (text : String) (question_number : String) : String :=
  if pyStrip text.data = [] then ""
  else
    let t := text.data
    let specific : Option (List Char) :=
      if question_number ≠ "" then
        match reSearch true (specificExplanationRE question_number) t with
        | some (_, _, caps) =>
          let e := _clean_explanation (pyStrip (getCap 1 caps))
          if e ≠ [] then some e else none
        | none => none
      else none
    match specific with
    | some e => e.asString
    | none =>
      let has_multiple_answers := 1 < (reFinditer false multiAnswerRE t).length
      if has_multiple_answers && question_number ≠ "" then ""
      else
        let fromAnalysis : Option (List Char) :=
          match reSearch true analysisRE t with
          | some (_, _, caps) =>
            let e := pyStrip (getCap 1 caps)
            let e :=
              match reSearch false nextQBracket e with
              | some (s0, _, _) => pyStrip (e.take s0)
              | none => e
            let e := _clean_explanation e
            if e ≠ [] then some e else none
          | none => none
        match fromAnalysis with
        | some e => e.asString
        | none =>
          match tryExplanationPatterns t EXPLANATION_PATTERNS with
          | some e => e.asString
          | none => ""

/-- The pattern loop of `_extract_question_number`: the captured token of
the first number-pattern family that matches anywhere in the text. -/
def _extract_question_number_raw (text : String) : Option String :=
  go text.data QUESTION_NUMBER_PATTERNS
where
  go (t : List Char) : List RE → Option String
    | [] => none
    | p :: rest =>
      match reSearch true p t with
      | some (_, _, caps) => some ((getCap 1 caps).asString)
      | none => go t rest

/-- `QuestionRecognizer._extract_question_number`. -/
def _extract_question_number (text : String) : String :=
  match _extract_question_number_raw text with
  | some raw => _convert_chinese_number raw
  | none => ""

/-- `QuestionRecognizer._extract_question_text`: the prefix before the
earliest option-label probe, with one number prefix removed per pattern
family (each removal followed by a strip, as in the source). -/
def _extract_question_text (text : String) : String :=
  let t := text.data
  let first_option_pos :=
    [optHeadUpper, optHeadLower, optHeadCircle].foldl
      (fun cur pat =>
        match reSearch true pat t with
        | some (s0, _, _) => if s0 < cur then s0 else cur
        | none => cur)
      t.length
  let question_text := pyStrip (t.take first_option_pos)
  let question_text :=
    QUESTION_NUMBER_PATTERNS.foldl
      (fun cur pat => pyStrip (reSubFirst false pat [] cur)) question_text
  question_text.asString

/-- The explicit multiple-choice tags checked by `identify_question_type`. -/
def multipleTagList : List String :=
  ["(多选)", "（多选）", "【多选题】", "【多选】", "可多选"]

/-- The explicit single-choice tags checked by `identify_question_type`. -/
def singleTagList : List String := ["(单选)", "（单选）", "【单选题】", "【单选】"]

/-- `QuestionRecognizer.identify_question_type`: answer-set cardinality
first; textual tags in the question text only as fallback.  (`text_block`
is accepted but, as in the source, never consulted.) -/
def identify_question_type (question : Question) (text_block : String) :
    QuestionType :=
  let _ := text_block
  if question.correct_answers ≠ [] then
    if question.correct_answers.length = 1 then QuestionType.SINGLE_CHOICE
    else QuestionType.MULTIPLE_CHOICE
  else
    let qt := question.question_text.data
    if multipleTagList.any (fun tag => containsSub tag.data qt) then
      QuestionType.MULTIPLE_CHOICE
    else if singleTagList.any (fun tag => containsSub tag.data qt) then
      QuestionType.SINGLE_CHOICE
    else
      QuestionType.UNKNOWN

/-- `QuestionRecognizer._validate_question`: set `needs_review` when the
question text is empty, fewer than two options exist, the answer list is
empty, or the type is unknown. -/
def _validate_question (question : Question) : Question :=
  let needs_review := false
  let needs_review :=
    if question.question_text = "" ∨ pyStrip question.question_text.data = []
    then true else needs_review
  let needs_review :=
    if question.options.length < 2 then true else needs_review
  let needs_review :=
    if question.correct_answers = [] then true else needs_review
  let needs_review :=
    if question.question_type = QuestionType.UNKNOWN then true
    else needs_review
  { question with needs_review := needs_review }

/-- `QuestionRecognizer.parse_question` (the Assembler).  `qid` models the
fresh `uuid.uuid4()` value. -/
def parse_question (qid : String) (text_block : String) (number : String) :
    Except String Question :=
  if pyStrip text_block.data = [] then .error "题目文本不能为空"
  else
    let number := if number = "" then _extract_question_number text_block else number
    let question_text := _extract_question_text text_block
    let options := extract_options text_block
    let correct_answers := extract_answer text_block number
    let explanation := extract_explanation text_block number
    let question : Question :=
      { id := qid, number := number, question_text := question_text,
        options := options, correct_answers := correct_answers,
        question_type := QuestionType.UNKNOWN, explanation := explanation,
        images := [], needs_review := false, selected := true, metadata := [] }
    let question :=
      { question with question_type := identify_question_type question text_block }
    .ok (_validate_question question)

end QuestionRecognizer

/-- A canonical question number: a (possibly empty) string of decimal
digits, as produced by the Numeral Normalizer for boundary matches. -/
def isCanonicalNumber (n : String) : Bool := n.data.all Char.isDigit

/-! ## Auxiliary definitions for the theorems -/

/-- Render an answer list as a separator-joined string fragment (the
spec's round-trip rendering: no separator, or one of the supported
separator characters between consecutive letters). -/
def renderAnswerString : Option Char → List Char → List Char
  | none, S => S
  | some sep, S => List.intersperse sep S

/-- The number of the assembled question, when assembly succeeded. -/
def questionNumberOf : Except String Question → Option String
  | .ok q => some q.number
  | .error _ => none

/-- A well-formed example span (the spec's §8 example). -/
def spanEx : String := "1. 什么是TCP？\nA. 一种协议\nB. 一种语言\n【答案】A"

/-- The question assembled from `spanEx` (checked by `rfl` below). -/
def qEx : Question :=
  { id := "uid-1", number := "1", question_text := "什么是TCP？",
    options := [{ label := 'A', content := "一种协议" },
                { label := 'B', content := "一种语言" }],
    correct_answers := ['A'], question_type := QuestionType.SINGLE_CHOICE,
    explanation := "", images := [], needs_review := false, selected := true,
    metadata := [] }

/-- A document whose first two questions have no inline answers and whose
trailing answer-key section lists them (segmenter backfill example). -/
def docT7 : String :=
  "1、甲甲甲甲甲甲甲甲甲甲甲甲甲甲甲甲甲甲甲甲\n2、乙乙乙乙乙乙乙乙乙乙乙乙乙乙乙乙乙乙乙乙\n1. 【正确答案】 A\n【答案解析】略略\n2. 【正确答案】 B"

/-- A span holding two answer-key entries of other questions plus a loose
`本题选A` phrase (the input on which the answer extractor's no-fallback
rule is violated). -/
def docMulti : String := "1.【正确答案】\n2.【答案】\n本题选A"

/-- A stored question used by the store-mutation witnesses. -/
def qA : Question :=
  { id := "qa", number := "1", question_text := "示例题干", options := [],
    correct_answers := ['A'], question_type := QuestionType.SINGLE_CHOICE }

/-- A store holding `qA`. -/
def mA : QuestionManager := { questions := [("qa", qA)], source_file_map := [] }

/-- A question with an empty identity. -/
def qEmptyId : Question :=
  { id := "", number := "", question_text := "", options := [],
    correct_answers := [], question_type := QuestionType.UNKNOWN }

/-- An updates dict whose `question_text` value has the wrong type. -/
def badUpdates : Updates := { question_text := some .other }

/-- A stored question whose text carries an explicit `（多选）` tag. -/
def qTag : Question :=
  { id := "qt", number := "1", question_text := "（多选）下列说法正确的是",
    options := [], correct_answers := ['A'],
    question_type := QuestionType.SINGLE_CHOICE }

/-- A store holding `qTag`. -/
def mTag : QuestionManager :=
  { questions := [("qt", qTag)], source_file_map := [] }

/-- An update clearing the answer list (and supplying no type). -/
def clearAnswersUpd : Updates := { correct_answers := some (.answers []) }

/-- A stored question with metadata, for the merge witness. -/
def qMeta : Question :=
  { id := "qm", number := "2", question_text := "题干", options := [],
    correct_answers := [], question_type := QuestionType.UNKNOWN,
    metadata := [("a", "1"), ("b", "2")] }

/-- A store holding `qMeta`. -/
def mMeta : QuestionManager :=
  { questions := [("qm", qMeta)], source_file_map := [] }

/-- An update supplying answers and a metadata mapping. -/
def mergeUpd : Updates :=
  { correct_answers := some (.answers ['A', 'B']),
    metadata := some (.dict [("b", "9"), ("c", "3")]) }

/-! ## Theorems -/

/-- Filtering with a predicate that rejects the separator and accepts every
list element removes exactly the interspersed separators. -/
theorem filter_intersperse_all {p : Char → Bool} {sep : Char}
    (hsep : p sep = false) :
    ∀ l : List Char, (∀ c ∈ l, p c = true) →
      (List.intersperse sep l).filter p = l
  | [], _ => rfl
  | [a], h => by
    simp [List.intersperse, List.filter, h a (by simp)]
  | a :: b :: t, h => by
    have ih := filter_intersperse_all hsep (b :: t)
      (fun c hc => h c (List.mem_cons_of_mem a hc))
    simp [List.intersperse_cons_cons, List.filter_cons,
      h a (by simp), hsep, ih]

/-- Filtering with an all-accepting predicate is the identity. -/
theorem filter_all_true {p : Char → Bool} :
    ∀ l : List Char, (∀ c ∈ l, p c = true) → l.filter p = l
  | [], _ => rfl
  | a :: t, h => by
    simp [List.filter_cons, h a (by simp),
      filter_all_true t (fun c hc => h c (List.mem_cons_of_mem a hc))]

/-- `filterMap` with a function that fixes every element is the identity. -/
theorem filterMap_fix {f : Char → Option Char} :
    ∀ l : List Char, (∀ c ∈ l, f c = some c) → l.filterMap f = l
  | [], _ => rfl
  | a :: t, h => by
    simp [List.filterMap_cons, h a (by simp),
      filterMap_fix t (fun c hc => h c (List.mem_cons_of_mem a hc))]

/-- The de-duplication pass keeps a duplicate-free list (disjoint from the
seen set) intact. -/
theorem dedupeKeepOrder_eq_self :
    ∀ (l : List Char) (seen : List Char), l.Nodup →
      (∀ c ∈ l, seen.contains c = false) → dedupeKeepOrder l seen = l
  | [], _, _, _ => rfl
  | a :: t, seen, hnd, hdisj => by
    have ha : seen.contains a = false := hdisj a (by simp)
    have hat : a ∉ t := (List.nodup_cons.mp hnd).1
    have ih := dedupeKeepOrder_eq_self t (a :: seen) (List.nodup_cons.mp hnd).2
      (fun c hc => by
        have hne : ¬c = a := fun h => hat (h ▸ hc)
        have h2 : c ∉ seen := by
          simpa using hdisj c (List.mem_cons_of_mem a hc)
        simpa using And.intro hne h2)
    have ha2 : a ∉ seen := by simpa using ha
    simp [dedupeKeepOrder, ha2, ih]

/-- Uppercase labels are fixed by `toUpper`, recognised by the letter test,
and are not separators. -/
theorem ucLetter_facts {c : Char} (h : c ∈ ucLetters) :
    c.toUpper = c ∧ ucLetters.contains c.toUpper = true ∧
      sepChars.contains c = false := by
  fin_cases h <;> exact ⟨rfl, rfl, rfl⟩

/-- Claim C2: round-trip of the answer-string parser — any ordered,
duplicate-free list of letters from {A,…,J}, rendered with any supported
separator (`、`, `,`, `，`, a space, or none), parses back to exactly that
list, in order, with no duplicates. -/
theorem answer_string_round_trip (S : List Char)
    (hS : ∀ c ∈ S, c ∈ ucLetters) (hnd : S.Nodup) (sep : Option Char)
    (hsep : sep ∈ [some '、', some ',', some '，', some ' ',
      (none : Option Char)]) :
    parse_answer_chars (renderAnswerString sep S) = S := by
  have hall : ∀ c ∈ S, (!(sepChars.contains c)) = true := fun c hc => by
    simpa using (ucLetter_facts (hS c hc)).2.2
  have hclean : (renderAnswerString sep S).filter
      (fun c => !(sepChars.contains c)) = S := by
    fin_cases hsep
    · exact filter_intersperse_all (by decide) S hall
    · exact filter_intersperse_all (by decide) S hall
    · exact filter_intersperse_all (by decide) S hall
    · exact filter_intersperse_all (by decide) S hall
    · exact filter_all_true S hall
  have hmap : S.filterMap (fun c =>
      if ucLetters.contains c.toUpper then some c.toUpper
      else List.lookup c CIRCLE_TO_LETTER) = S := by
    refine filterMap_fix S (fun c hc => ?_)
    obtain ⟨h1, h2, _⟩ := ucLetter_facts (hS c hc)
    rw [h1] at h2 ⊢
    simp [h2]
    intro hmem
    exact absurd (by simpa using h2) hmem
  unfold parse_answer_chars
  dsimp only
  rw [hclean, hmap]
  exact dedupeKeepOrder_eq_self S [] hnd (fun c _ => rfl)

/-- Witness for C2 at `S = [A, C]` with the `、` separator. -/
theorem answer_string_round_trip_witness :
    parse_answer_chars (renderAnswerString (some '、') ['A', 'C']) = ['A', 'C'] :=
  answer_string_round_trip ['A', 'C'] (by decide) (by decide) (some '、')
    (by decide)

/-- An association-list lookup misses when the key differs from every
stored key. -/
theorem lookup_eq_none_of_ne {β : Type} (a : String) :
    ∀ l : List (String × β), (∀ kv ∈ l, a ≠ kv.1) → List.lookup a l = none
  | [], _ => rfl
  | (k, v) :: rest, h => by
    have hk : a ≠ k := h (k, v) (by simp)
    have ih := lookup_eq_none_of_ne a rest
      (fun kv hkv => h kv (List.mem_cons_of_mem _ hkv))
    simp [List.lookup, beq_eq_false_iff_ne.mpr hk, ih]

/-- Claim C9: the Numeral Normalizer is total (a Lean function) and:
Arabic-digit tokens pass through unchanged; table entries map to their
listed values; the place-value parse never yields 0 (an all-zero or empty
parse defaults to 1); tokens of numeral characters outside the table go
through the place-value parse. -/
theorem numeral_normalizer_spec :
    (∀ s : String, s.data ≠ [] → s.data.all Char.isDigit = true →
      _convert_chinese_number s = s)
    ∧ (∀ kv ∈ CHINESE_TO_ARABIC, _convert_chinese_number kv.1 = kv.2)
    ∧ (∀ s : List Char, 1 ≤ _parse_chinese_number s)
    ∧ (∀ s : String, List.lookup s CHINESE_TO_ARABIC = none →
        s.data ≠ [] → s.data.all isCjkNum = true →
        _convert_chinese_number s = toString (_parse_chinese_number s.data)) := by
  refine ⟨?_, ?_, ?_, ?_⟩
  · intro s hne hd
    have hkeys : ∀ kv ∈ CHINESE_TO_ARABIC, kv.1.data.all Char.isDigit = false := by
      decide
    have hlook : List.lookup s CHINESE_TO_ARABIC = none := by
      refine lookup_eq_none_of_ne s CHINESE_TO_ARABIC (fun kv hkv heq => ?_)
      rw [heq] at hd
      rw [hkeys kv hkv] at hd
      exact Bool.false_ne_true hd
    have hnotcjk : ¬(s.data ≠ [] ∧ s.data.all isCjkNum = true) := by
      rintro ⟨-, hall⟩
      obtain ⟨c, hc⟩ := List.exists_mem_of_ne_nil s.data hne
      have h1 : Char.isDigit c = true := by
        have := List.all_eq_true.mp hd c hc
        simpa using this
      have h2 : isCjkNum c = true := by
        have := List.all_eq_true.mp hall c hc
        simpa using this
      have h3 : c ∈ "一二三四五六七八九十百".data := by
        simpa [isCjkNum, inS] using h2
      fin_cases h3 <;> exact absurd h1 (by decide)
    unfold _convert_chinese_number
    rw [hlook]
    simp only [ne_eq]
    rw [if_neg]
    · intro hcontra
      exact hnotcjk ⟨hcontra.1, hcontra.2⟩
  · intro kv hkv
    fin_cases hkv <;> rfl
  · intro s
    unfold _parse_chinese_number
    dsimp only
    split
    · omega
    · exact Nat.le_refl 1
  · intro s hlook hne hall
    unfold _convert_chinese_number
    rw [hlook]
    rw [if_pos ⟨hne, hall⟩]

/-- Witness for C9: an Arabic token, a table entry, the never-zero default,
and a compound numeral outside the table. -/
theorem numeral_normalizer_spec_witness :
    _convert_chinese_number "12" = "12"
    ∧ _convert_chinese_number "三" = "3"
    ∧ 1 ≤ _parse_chinese_number "零".data
    ∧ _convert_chinese_number "二十一" =
        toString (_parse_chinese_number "二十一".data) :=
  ⟨numeral_normalizer_spec.1 "12" (by decide) (by decide),
   numeral_normalizer_spec.2.1 ("三", "3") (by decide),
   numeral_normalizer_spec.2.2.1 "零".data,
   numeral_normalizer_spec.2.2.2 "二十一" (by decide) (by decide) (by decide)⟩

/-- Claim C5: Question Store mutations are atomic on failure — inserting an
empty or duplicate identity fails and returns the store unchanged; removing
an absent identity reports `false` and changes nothing; an update whose
validation fails raises without applying any mutation. -/
theorem store_mutations_atomic (m : QuestionManager) (question : Question)
    (source_file question_id : String) (updates : Updates) :
    ((question.id = "" ∨ (List.lookup question.id m.questions).isSome = true) →
      isErrorE (QuestionManager.add_question m question source_file).1 = true ∧
      (QuestionManager.add_question m question source_file).2 = m)
    ∧ ((List.lookup question_id m.questions).isNone = true →
      QuestionManager.remove_question m question_id = (false, m))
    ∧ (∀ e, QuestionManager._validate_updates updates = .error e →
      isErrorE (QuestionManager.update_question m question_id updates).1 = true ∧
      (QuestionManager.update_question m question_id updates).2 = m) := by
  refine ⟨?_, ?_, ?_⟩
  · intro h
    by_cases hid : question.id = ""
    · simp [QuestionManager.add_question, hid, isErrorE]
    · have hsome : (List.lookup question.id m.questions).isSome = true := by
        rcases h with h | h
        · exact absurd h hid
        · exact h
      simp [QuestionManager.add_question, hid, hsome, isErrorE]
  · intro h
    simp [QuestionManager.remove_question, h]
  · intro e he
    cases hl : List.lookup question_id m.questions with
    | none => simp [QuestionManager.update_question, hl, isErrorE]
    | some q0 => simp [QuestionManager.update_question, hl, he, isErrorE]

/-- Witness for C5: empty-id insertion, absent-id removal, and an ill-typed
update on a concrete store. -/
theorem store_mutations_atomic_witness :
    (isErrorE (QuestionManager.add_question mA qEmptyId "src").1 = true ∧
      (QuestionManager.add_question mA qEmptyId "src").2 = mA)
    ∧ QuestionManager.remove_question mA "nope" = (false, mA)
    ∧ (isErrorE (QuestionManager.update_question mA "qa" badUpdates).1 = true ∧
      (QuestionManager.update_question mA "qa" badUpdates).2 = mA) :=
  ⟨(store_mutations_atomic mA qEmptyId "src" "x" badUpdates).1 (Or.inl rfl),
   (store_mutations_atomic mA qEmptyId "src" "nope" badUpdates).2.1 (by decide),
   (store_mutations_atomic mA qEmptyId "src" "qa" badUpdates).2.2
     "问题文本必须是字符串" rfl⟩

/-- Looking up the key just assigned finds the assigned value. -/
theorem lookup_dictSet_self {β : Type} :
    ∀ (l : List (String × β)) (k : String) (v : β),
      List.lookup k (dictSet l k v) = some v
  | [], k, v => by simp [dictSet, List.lookup]
  | (k0, v0) :: rest, k, v => by
    by_cases h : k0 = k
    · subst h
      simp [dictSet, List.lookup]
    · simp [dictSet, h, List.lookup, beq_eq_false_iff_ne.mpr (Ne.symm h),
        lookup_dictSet_self rest k v]

/-- Assigning one key leaves lookups of other keys unchanged. -/
theorem lookup_dictSet_ne {β : Type} (k k' : String) (hne : k' ≠ k) :
    ∀ (l : List (String × β)) (v : β),
      List.lookup k' (dictSet l k v) = List.lookup k' l
  | [], v => by
    simp [dictSet, List.lookup, beq_eq_false_iff_ne.mpr hne]
  | (k0, v0) :: rest, v => by
    by_cases h : k0 = k
    · subst h
      simp [dictSet, List.lookup, beq_eq_false_iff_ne.mpr hne]
    · cases hbeq : (k' == k0) <;>
        simp [dictSet, h, List.lookup, hbeq, lookup_dictSet_ne k k' hne rest v]

/-- Keys present after an assignment were present before, or are the
assigned key. -/
theorem mem_keys_dictSet {β : Type} :
    ∀ (l : List (String × β)) (k : String) (v : β) (a : String),
      a ∈ (dictSet l k v).map Prod.fst → a ∈ l.map Prod.fst ∨ a = k
  | [], k, v, a, h => by
    simp [dictSet] at h
    exact Or.inr h
  | (k0, v0) :: rest, k, v, a, h => by
    by_cases hk : k0 = k
    · subst hk
      simp [dictSet] at h
      exact Or.inl (by simpa using h)
    · simp [dictSet, hk] at h
      rcases h with h | h
      · exact Or.inl (by simp [h])
      · rcases mem_keys_dictSet rest k v a (by simpa using h) with h2 | h2
        · exact Or.inl (by simp [h2])
        · exact Or.inr h2

/-- Assignment preserves duplicate-free keys. -/
theorem dictSet_keys_nodup {β : Type} :
    ∀ (l : List (String × β)) (k : String) (v : β),
      (l.map Prod.fst).Nodup → ((dictSet l k v).map Prod.fst).Nodup
  | [], k, v, _ => by simp [dictSet]
  | (k0, v0) :: rest, k, v, h => by
    by_cases hk : k0 = k
    · subst hk
      simpa [dictSet] using h
    · rw [List.map_cons] at h
      have h' := List.nodup_cons.mp h
      have ih := dictSet_keys_nodup rest k v h'.2
      simp only [dictSet, if_neg hk, List.map_cons, List.nodup_cons]
      refine ⟨fun hmem => ?_, ih⟩
      rcases mem_keys_dictSet rest k v k0 hmem with h2 | h2
      · exact h'.1 h2
      · exact hk h2

/-- A key outside the stored keys looks up to nothing. -/
theorem lookup_eq_none_of_not_mem_keys {β : Type} (k : String)
    (l : List (String × β)) (h : k ∉ l.map Prod.fst) :
    List.lookup k l = none :=
  lookup_eq_none_of_ne k l
    (fun kv hkv heq => h (heq ▸ List.mem_map_of_mem Prod.fst hkv))

/-- `dict.update` is a left-biased-by-new shallow union: the merged lookup
tries the new mapping first, then the old one. -/
theorem lookup_dictUpdate {β : Type} :
    ∀ (new old : List (String × β)),
      (new.map Prod.fst).Nodup → (old.map Prod.fst).Nodup → ∀ k,
      List.lookup k (dictUpdate old new) =
        (List.lookup k new).orElse (fun _ => List.lookup k old)
  | [], old, _, _, k => by
    simp [dictUpdate, List.lookup, Option.orElse]
  | (k0, v0) :: rest, old, hnew, hold, k => by
    have hstep :
        dictUpdate old ((k0, v0) :: rest) = dictUpdate (dictSet old k0 v0) rest :=
      rfl
    rw [hstep]
    rw [List.map_cons] at hnew
    have h1 := List.nodup_cons.mp hnew
    have ih := lookup_dictUpdate rest (dictSet old k0 v0) h1.2
      (dictSet_keys_nodup old k0 v0 hold) k
    rw [ih]
    by_cases hk : k = k0
    · subst hk
      rw [lookup_eq_none_of_not_mem_keys k rest h1.1, lookup_dictSet_self old k v0]
      simp [List.lookup, Option.orElse]
    · rw [lookup_dictSet_ne k0 k hk old v0]
      simp [List.lookup, beq_eq_false_iff_ne.mpr hk, Option.orElse]

/-- The automatic type recomputation yields exactly the cardinality-derived
type. -/
theorem auto_update_type (q : Question) :
    (QuestionManager._auto_update_question_type q).question_type =
      (if q.correct_answers.length = 0 then QuestionType.UNKNOWN
       else if q.correct_answers.length = 1 then QuestionType.SINGLE_CHOICE
       else QuestionType.MULTIPLE_CHOICE) := by
  unfold QuestionManager._auto_update_question_type
  dsimp only
  repeat' split
  all_goals first
    | rfl
    | (rename_i h2; exact not_not.mp h2)

/-- The automatic type recomputation touches only the type field. -/
theorem auto_update_metadata (q : Question) :
    (QuestionManager._auto_update_question_type q).metadata = q.metadata := by
  unfold QuestionManager._auto_update_question_type
  dsimp only
  repeat' split
  all_goals rfl

/-- Counterexample to C6 as stated: after an update clearing the answer
list (without supplying a type), the stored type is `UNKNOWN`, while the
§4.9 Type Classifier on that same stored record — whose text carries a
`（多选）` tag — yields `MULTIPLE_CHOICE`; so the store does not re-run the
classifier with its textual-tag fallback. -/
theorem update_type_reclassify_counterexample :
    ((List.lookup "qt"
        (QuestionManager.update_question mTag "qt" clearAnswersUpd).2.questions).map
      Question.question_type = some QuestionType.UNKNOWN)
    ∧ ((List.lookup "qt"
        (QuestionManager.update_question mTag "qt" clearAnswersUpd).2.questions).map
      (fun q => QuestionRecognizer.identify_question_type q "")
      = some QuestionType.MULTIPLE_CHOICE) := by
  exact ⟨rfl, rfl⟩

/-- Claim C6 (amended): when an update supplies `correct_answers` without
`question_type`, the stored type is recomputed from the updated answer-list
cardinality alone (0 → Unknown, 1 → Single, >1 → Multiple, no textual-tag
fallback); when the update supplies `metadata`, the stored metadata is the
shallow union of the old metadata with the supplied mapping, new keys
overriding. -/
theorem update_auto_type_and_metadata_merge (m : QuestionManager)
    (question_id : String) (updates : Updates) (current : Question)
    (ans : List Char)
    (hq : List.lookup question_id m.questions = some current)
    (hv : QuestionManager._validate_updates updates = .ok ())
    (hca : updates.correct_answers = some (.answers ans))
    (hqt : updates.question_type = none) :
    ((List.lookup question_id
        (QuestionManager.update_question m question_id updates).2.questions).map
      Question.question_type
      = some (if ans.length = 0 then QuestionType.UNKNOWN
              else if ans.length = 1 then QuestionType.SINGLE_CHOICE
              else QuestionType.MULTIPLE_CHOICE))
    ∧ (∀ d, updates.metadata = some (.dict d) →
        (d.map Prod.fst).Nodup → (current.metadata.map Prod.fst).Nodup →
        ∀ k, (List.lookup question_id
            (QuestionManager.update_question m question_id updates).2.questions).map
          (fun q => List.lookup k q.metadata)
          = some ((List.lookup k d).orElse
              (fun _ => List.lookup k current.metadata))) := by
  have hcond : (updates.correct_answers.isSome && updates.question_type.isNone)
      = true := by
    rw [hca, hqt]
    rfl
  have hstored :
      (QuestionManager.update_question m question_id updates).2.questions =
        dictSet m.questions question_id
          (QuestionManager._auto_update_question_type
            (QuestionManager.applyUpdatesQ current updates)) := by
    unfold QuestionManager.update_question
    rw [hq, hv]
    dsimp only
    rw [hcond]
    rfl
  have hlook := lookup_dictSet_self m.questions question_id
    (QuestionManager._auto_update_question_type
      (QuestionManager.applyUpdatesQ current updates))
  have hca' : (QuestionManager.applyUpdatesQ current updates).correct_answers
      = ans := by
    simp [QuestionManager.applyUpdatesQ, hca]
  constructor
  · rw [hstored, hlook]
    simp only [Option.map_some']
    rw [auto_update_type, hca']
  · intro d hmeta hnd hndold k
    rw [hstored, hlook]
    simp only [Option.map_some']
    rw [auto_update_metadata]
    have hmeta' : (QuestionManager.applyUpdatesQ current updates).metadata
        = dictUpdate current.metadata d := by
      simp [QuestionManager.applyUpdatesQ, hmeta]
    rw [hmeta', lookup_dictUpdate d current.metadata hnd hndold k]

/-- Witness for C6 (amended): two answers and a metadata merge on a
concrete store. -/
theorem update_auto_type_and_metadata_merge_witness :
    ((List.lookup "qm"
        (QuestionManager.update_question mMeta "qm" mergeUpd).2.questions).map
      Question.question_type = some QuestionType.MULTIPLE_CHOICE)
    ∧ ((List.lookup "qm"
        (QuestionManager.update_question mMeta "qm" mergeUpd).2.questions).map
      (fun q => List.lookup "b" q.metadata) = some (some "9")) := by
  have h := update_auto_type_and_metadata_merge mMeta "qm" mergeUpd qMeta
    ['A', 'B'] rfl rfl rfl rfl
  refine ⟨by simpa using h.1, ?_⟩
  have h2 := h.2 [("b", "9"), ("c", "3")] rfl (by decide) (by decide) "b"
  simpa using h2

/-- Every boundary surviving the de-duplication pass lies at least 20
characters past the incoming `last_pos` and carries an unseen number. -/
theorem dedupBoundaries_mem :
    ∀ (l : List (String × Nat)) (seen : List String) (last : Int),
      ∀ x ∈ QuestionRecognizer.dedupBoundaries l seen last,
        last + 20 ≤ (x.2 : Int) ∧ x.1 ∉ seen
  | [], seen, last => by
    intro x hx
    simp [QuestionRecognizer.dedupBoundaries] at hx
  | (number, pos) :: rest, seen, last => by
    intro x hx
    unfold QuestionRecognizer.dedupBoundaries at hx
    split at hx
    · rename_i hgap
      split at hx
      · rename_i hseen
        obtain ⟨h1, h2⟩ := dedupBoundaries_mem rest seen last x hx
        exact ⟨h1, h2⟩
      · rename_i hseen
        rcases List.mem_cons.mp hx with h | h
        · subst h
          refine ⟨hgap, ?_⟩
          simpa using hseen
        · obtain ⟨h1, h2⟩ := dedupBoundaries_mem rest (number :: seen) pos x h
          refine ⟨by omega, fun hmem => h2 (List.mem_cons_of_mem number hmem)⟩
    · exact dedupBoundaries_mem rest seen last x hx

/-- The de-duplication output is chained with gaps of at least 20. -/
theorem dedupBoundaries_chain :
    ∀ (l : List (String × Nat)) (seen : List String) (last : Int),
      List.Chain' (fun a b : String × Nat => a.2 + 20 ≤ b.2)
        (QuestionRecognizer.dedupBoundaries l seen last)
  | [], _, _ => List.chain'_nil
  | (number, pos) :: rest, seen, last => by
    unfold QuestionRecognizer.dedupBoundaries
    split
    · rename_i hgap
      split
      · exact dedupBoundaries_chain rest seen last
      · refine List.chain'_cons'.mpr ⟨?_, dedupBoundaries_chain rest (number :: seen) pos⟩
        intro y hy
        have hmem := List.mem_of_mem_head? hy
        have := (dedupBoundaries_mem rest (number :: seen) pos y hmem).1
        omega
    · exact dedupBoundaries_chain rest seen last

/-- The numbers surviving the de-duplication pass are pairwise distinct. -/
theorem dedupBoundaries_nodup :
    ∀ (l : List (String × Nat)) (seen : List String) (last : Int),
      ((QuestionRecognizer.dedupBoundaries l seen last).map Prod.fst).Nodup
  | [], _, _ => List.nodup_nil
  | (number, pos) :: rest, seen, last => by
    unfold QuestionRecognizer.dedupBoundaries
    split
    · split
      · exact dedupBoundaries_nodup rest seen last
      · rw [List.map_cons, List.nodup_cons]
        refine ⟨?_, dedupBoundaries_nodup rest (number :: seen) pos⟩
        intro hmem
        obtain ⟨x, hx, hfst⟩ := List.mem_map.mp hmem
        have := (dedupBoundaries_mem rest (number :: seen) pos x hx).2
        exact this (hfst ▸ List.mem_cons_self number seen)
    · exact dedupBoundaries_nodup rest seen last

/-- The de-duplication output is a sublist of its input. -/
theorem dedupBoundaries_sublist :
    ∀ (l : List (String × Nat)) (seen : List String) (last : Int),
      (QuestionRecognizer.dedupBoundaries l seen last).Sublist l
  | [], _, _ => List.Sublist.refl []
  | (number, pos) :: rest, seen, last => by
    unfold QuestionRecognizer.dedupBoundaries
    split
    · split
      · exact (dedupBoundaries_sublist rest seen last).cons (number, pos)
      · exact (dedupBoundaries_sublist rest (number :: seen) pos).cons₂ (number, pos)
    · exact (dedupBoundaries_sublist rest seen last).cons (number, pos)

/-- Claim C8: the Boundary Detector's output is chained by at-least-20
character gaps (hence sorted by strictly increasing offset), its canonical
numbers are pairwise distinct, and it is obtained from the sorted collected
matches by keeping only gap-satisfying, unseen-number entries (a sublist). -/
theorem boundary_dedup_invariants (text : String) :
    List.Chain' (fun a b : String × Nat => a.2 + 20 ≤ b.2)
      (QuestionRecognizer._find_question_boundaries text)
    ∧ ((QuestionRecognizer._find_question_boundaries text).map Prod.fst).Nodup
    ∧ (QuestionRecognizer._find_question_boundaries text).Sublist
        (QuestionRecognizer.sortByPos
          (QuestionRecognizer.collectBoundaries text.data))
    ∧ List.Pairwise (fun a b : String × Nat => a.2 < b.2)
        (QuestionRecognizer._find_question_boundaries text) := by
  have hchain := dedupBoundaries_chain
    (QuestionRecognizer.sortByPos (QuestionRecognizer.collectBoundaries text.data))
    [] (-100)
  haveI : IsTrans (String × Nat) (fun a b : String × Nat => a.2 + 20 ≤ b.2) :=
    ⟨fun a b c hab hbc => by omega⟩
  have hpair := List.chain'_iff_pairwise.mp hchain
  refine ⟨hchain, dedupBoundaries_nodup _ _ _, dedupBoundaries_sublist _ _ _, ?_⟩
  exact hpair.imp (fun h => by omega)

/-- Claim C3: the Assembler raises exactly on empty or whitespace-only
spans; for every non-empty span and canonical number it returns a
Question. -/
theorem assembler_hard_failure_iff (qid text_block number : String)
    (hn : isCanonicalNumber number = true) :
    isErrorE (QuestionRecognizer.parse_question qid text_block number) = false ↔
      ¬(pyStrip text_block.data = []) := by
  by_cases hs : pyStrip text_block.data = [] <;>
    simp [QuestionRecognizer.parse_question, hs, isErrorE]

/-- Witness for C3 at the §8 example span and number `"1"`. -/
theorem assembler_hard_failure_iff_witness :
    isErrorE (QuestionRecognizer.parse_question "uid-1" spanEx "1") = false ↔
      ¬(pyStrip spanEx.data = []) :=
  assembler_hard_failure_iff "uid-1" spanEx "1" (by decide)

/-- The validation step leaves every field except `needs_review` unchanged. -/
theorem validate_fields (q : Question) :
    (QuestionRecognizer._validate_question q).question_text = q.question_text
    ∧ (QuestionRecognizer._validate_question q).options = q.options
    ∧ (QuestionRecognizer._validate_question q).correct_answers =
        q.correct_answers
    ∧ (QuestionRecognizer._validate_question q).question_type =
        q.question_type :=
  ⟨rfl, rfl, rfl, rfl⟩

/-- The review flag computed by `_validate_question` is exactly the
four-way completeness disjunction. -/
theorem validate_needs_review_iff (q : Question) :
    ((QuestionRecognizer._validate_question q).needs_review = true) ↔
      (pyStrip q.question_text.data = [] ∨ q.options.length < 2 ∨
       q.correct_answers = [] ∨ q.question_type = QuestionType.UNKNOWN) := by
  have hempty : q.question_text = "" → pyStrip q.question_text.data = [] := by
    intro h
    rw [h]
    rfl
  unfold QuestionRecognizer._validate_question
  dsimp only
  split_ifs with hA hB hC hD
  · simp only [true_iff]
    exact Or.inr (Or.inr (Or.inr hA))
  · simp only [true_iff]
    exact Or.inr (Or.inr (Or.inl hB))
  · simp only [true_iff]
    exact Or.inr (Or.inl hC)
  · simp only [true_iff]
    exact Or.inl (hD.elim hempty id)
  · constructor
    · intro hcontra
      exact absurd hcontra (by simp)
    · intro hdisj
      exfalso
      rcases hdisj with h | h | h | h
      · exact hD (Or.inr h)
      · exact hC h
      · exact hB h
      · exact hA h

/-- Claim C4: for every Question produced by the Assembler, `needs_review`
holds iff the question text strips to empty, or fewer than two options were
found, or the answer list is empty, or the type is Unknown. -/
theorem needs_review_disjunction (qid text_block number : String) (q : Question)
    (hn : isCanonicalNumber number = true)
    (h : QuestionRecognizer.parse_question qid text_block number = .ok q) :
    (q.needs_review = true) ↔
      (pyStrip q.question_text.data = [] ∨ q.options.length < 2 ∨
       q.correct_answers = [] ∨ q.question_type = QuestionType.UNKNOWN) := by
  by_cases hs : pyStrip text_block.data = []
  · simp [QuestionRecognizer.parse_question, hs] at h
  · unfold QuestionRecognizer.parse_question at h
    rw [if_neg hs] at h
    injection h with h2
    rw [← h2]
    exact validate_needs_review_iff _

/-- Witness for C4 at the §8 example span: the assembled question is `qEx`
and its review flag is false, matching the falsified disjunction. -/
theorem needs_review_disjunction_witness :
    (qEx.needs_review = true) ↔
      (pyStrip qEx.question_text.data = [] ∨ qEx.options.length < 2 ∨
       qEx.correct_answers = [] ∨ qEx.question_type = QuestionType.UNKNOWN) :=
  needs_review_disjunction "uid-1" spanEx "1" qEx (by decide) (by rfl)

/-- Claim C10: with an empty number argument on a non-empty span, the
assembled question's number is the one derived by `_extract_question_number`
(the first number-pattern family that matches, normalised); when no family
matches, that derived number is the empty string, not an error. -/
theorem assembler_derives_number (qid text_block : String)
    (h : ¬(pyStrip text_block.data = [])) :
    questionNumberOf (QuestionRecognizer.parse_question qid text_block "") =
      some (QuestionRecognizer._extract_question_number text_block)
    ∧ (QuestionRecognizer._extract_question_number_raw text_block = none →
        QuestionRecognizer._extract_question_number text_block = "")
    ∧ (∀ raw, QuestionRecognizer._extract_question_number_raw text_block =
          some raw →
        QuestionRecognizer._extract_question_number text_block =
          _convert_chinese_number raw) := by
  refine ⟨?_, ?_, ?_⟩
  · unfold QuestionRecognizer.parse_question
    rw [if_neg h]
    rfl
  · intro hraw
    unfold QuestionRecognizer._extract_question_number
    rw [hraw]
  · intro raw hraw
    unfold QuestionRecognizer._extract_question_number
    rw [hraw]

/-- Witness for C10 at the §8 example span. -/
theorem assembler_derives_number_witness :
    questionNumberOf (QuestionRecognizer.parse_question "uid-2" spanEx "") =
      some (QuestionRecognizer._extract_question_number spanEx) :=
  (assembler_derives_number "uid-2" spanEx (by decide)).1

/-- Each produced span is the trimmed slice up to the next boundary,
backfilled from the answer-key side-table exactly when the slice holds
neither inline answer marker and the table has an entry for its number. -/
theorem segmentSpans_get? (t : List Char) (am : List (String × List Char)) :
    ∀ (bs : List (String × Nat)) (i : Nat) (number : String) (start_pos : Nat),
      bs.get? i = some (number, start_pos) →
      (QuestionRecognizer.segmentSpans t am bs).get? i = some (number,
        (let end_pos :=
          match bs.get? (i + 1) with
          | some (_, e) => e
          | none => t.length
         let sl := pyStrip (sliceLC t start_pos end_pos)
         match List.lookup number am with
         | some answer_info =>
           if ¬containsSub QuestionRecognizer.mark1 sl ∧
              ¬containsSub QuestionRecognizer.mark2 sl
           then (sl ++ '\n' :: answer_info).asString
           else sl.asString
         | none => sl.asString))
  | [], i, number, start_pos => by
    intro h
    simp at h
  | (n0, p0) :: tl, i, number, start_pos => by
    intro h
    cases i with
    | zero =>
      simp only [List.get?_cons_zero, Option.some.injEq] at h
      obtain ⟨rfl, rfl⟩ := Prod.mk.injEq .. |>.mp h
      cases tl with
      | nil =>
        simp only [QuestionRecognizer.segmentSpans, List.get?_cons_zero,
          List.get?_cons_succ, List.get?_nil]
        cases List.lookup n0 am with
        | none => rfl
        | some ai => rw [apply_ite List.asString]
      | cons hd2 tl2 =>
        obtain ⟨n2, p2⟩ := hd2
        simp only [QuestionRecognizer.segmentSpans, List.get?_cons_zero,
          List.get?_cons_succ]
        cases List.lookup n0 am with
        | none => rfl
        | some ai => rw [apply_ite List.asString]
    | succ j =>
      simp only [List.get?_cons_succ] at h
      simpa only [QuestionRecognizer.segmentSpans, List.get?_cons_succ]
        using segmentSpans_get? t am tl j number start_pos h

/-- Claim C7: the Segmenter returns zero spans when no boundaries are
detected (including empty input), and each returned span is the trimmed
slice, with the answer-key side-table entry appended exactly when the slice
lacks both `【正确答案】` and `【答案】` and the table has an entry for the
span's canonical number. -/
theorem segmenter_backfill (text : String) :
    (QuestionRecognizer._find_question_boundaries text = [] →
      QuestionRecognizer.recognize_questions text = [])
    ∧ (∀ i number start_pos, ¬(pyStrip text.data = []) →
        (QuestionRecognizer._find_question_boundaries text).get? i =
          some (number, start_pos) →
        (QuestionRecognizer.recognize_questions text).get? i = some (number,
          (let end_pos :=
            match (QuestionRecognizer._find_question_boundaries text).get?
                (i + 1) with
            | some (_, e) => e
            | none => text.data.length
           let sl := pyStrip (sliceLC text.data start_pos end_pos)
           match List.lookup number
               (QuestionRecognizer._extract_answer_section text) with
           | some answer_info =>
             if ¬containsSub QuestionRecognizer.mark1 sl ∧
                ¬containsSub QuestionRecognizer.mark2 sl
             then (sl ++ '\n' :: answer_info).asString
             else sl.asString
           | none => sl.asString))) := by
  constructor
  · intro hb
    unfold QuestionRecognizer.recognize_questions
    split
    · rfl
    · dsimp only
      rw [hb]
      simp
  · intro i number start_pos hs hib
    have hnonnil : ¬(QuestionRecognizer._find_question_boundaries text = []) := by
      intro hnil
      rw [hnil] at hib
      simp at hib
    unfold QuestionRecognizer.recognize_questions
    rw [if_neg hs]
    dsimp only
    rw [if_neg hnonnil]
    exact segmentSpans_get? text.data
      (QuestionRecognizer._extract_answer_section text)
      (QuestionRecognizer._find_question_boundaries text) i number start_pos hib

/-- Witness for C7 at `docT7`, span 0: the span lacking inline markers is
backfilled with its answer-key entry. -/
theorem segmenter_backfill_witness :
    (QuestionRecognizer.recognize_questions docT7).get? 0 =
      some ("1",
        "1、甲甲甲甲甲甲甲甲甲甲甲甲甲甲甲甲甲甲甲甲\n【正确答案】 A\n【答案解析】略略") := by
  have h := (segmenter_backfill docT7).2 0 "1" 0 (by decide) (by decide)
  rw [h]
  rfl

/-- Claim C1 names a code bug: on `docMulti` with number `"1"`, the exact
number-qualified pattern fails and the text holds more than one generic
answer-key entry, yet `extract_answer` does not return the empty list — the
loose `(本题|此题|该题)…letter` fallback still runs and yields `['A']`,
although the guard's own comment says the function should return empty
here. -/
theorem extract_answer_loose_fallback_after_guard :
    1 < (reFinditer false multiAnswerRE docMulti.data).length
    ∧ reSearch true (specificAnswerRE "1") docMulti.data = none
    ∧ QuestionRecognizer.extract_answer docMulti "1" = ['A'] :=
  ⟨by decide, by decide, by decide⟩

end PdfToAnki
